import Mathlib

/-!
Verification of the fleet tyre-maintenance savings calculator
(`vanservicing.py`).  The numeric code is embedded over `ℚ`: every
constant in the source is an exact decimal, and the Python arithmetic
(`/`, `*`, `-`, `+`) is modelled by exact rational arithmetic.
-/

set_option autoImplicit false

/-- `LITRES_PER_GALLON` constant (line 4 of the source). -/
def LITRES_PER_GALLON : ℚ := 4.54609

/-- One entry of `DEFAULT_PARAMS`: the per-class physical/economic
parameters (lines 8-25 of the source). -/
structure VanParams where
  mpg_std : ℚ
  mpg_under : ℚ
  tyre_cost_std : ℚ
  tyre_cost_under : ℚ
deriving DecidableEq, Repr

/-- `DEFAULT_PARAMS` (lines 8-25): the vehicle-class catalog, as an
association list in source order. -/
def DEFAULT_PARAMS : List (String × VanParams) :=
  [("Small Van", ⟨54.3, 51.0, 240.0, 283.2⟩),
   ("Medium Van", ⟨44.8, 42.1, 320.0, 377.6⟩),
   ("Large Van", ⟨40.9, 38.4, 380.0, 448.4⟩),
   ("Long Wheelbase Van", ⟨32.5, 30.6, 380.0, 448.4⟩)]

/-- `DEFAULT_TYRE_LIFESPAN_MILES` (line 26). -/
def DEFAULT_TYRE_LIFESPAN_MILES : ℚ := 20000

/-- `calculate_extra_fuel_cost_10k` (lines 29-37): extra fuel cost per
10,000 miles due to underinflation, with the degrade-to-zero guard. -/
def calculate_extra_fuel_cost_10k (mpg_std mpg_under price_per_litre : ℚ) : ℚ :=
  if mpg_std ≤ 0 ∨ mpg_under ≤ 0 ∨ price_per_litre ≤ 0 then 0
  else
    let gallons_std := 10000 / mpg_std
    let gallons_under := 10000 / mpg_under
    let cost_std := gallons_std * LITRES_PER_GALLON * price_per_litre
    let cost_under := gallons_under * LITRES_PER_GALLON * price_per_litre
    cost_under - cost_std

/-- `calculate_extra_tyre_cost_10k` (lines 39-45): extra tyre cost per
10,000 miles due to faster wear, with the degrade-to-zero guard. -/
def calculate_extra_tyre_cost_10k (tyre_cost_std tyre_cost_under lifespan_miles : ℚ) : ℚ :=
  if lifespan_miles ≤ 0 then 0
  else
    let cost_diff_lifespan := tyre_cost_under - tyre_cost_std
    cost_diff_lifespan / (lifespan_miles / 10000)

/-- The two observable outputs of one `process_van_type` call
(lines 85-110): the returned annual savings (lines 106/110) and the value
stored in `savings_per_10k_summary` (lines 101/109). -/
structure ProcessResult where
  annual_savings : ℚ
  saving_per_10k : ℚ
deriving DecidableEq, Repr

/-- `process_van_type` (lines 85-110).  The catalog lookup
`DEFAULT_PARAMS[van_type_name]` raises `KeyError` in Python for an
unregistered name; that error is modelled by `none`.  `count` and
`miles` are the two widget inputs of the call (both non-negative in the
UI; `count` is an integer). -/
def process_van_type (van_type_name : String) (diesel_price : ℚ)
    (count : ℕ) (miles : ℚ) : Option ProcessResult :=
  match List.lookup van_type_name DEFAULT_PARAMS with
  | none => none
  | some params =>
    let tyre_lifespan := DEFAULT_TYRE_LIFESPAN_MILES
    if 0 < count ∧ 0 < miles then
      let extra_fuel_cost :=
        calculate_extra_fuel_cost_10k params.mpg_std params.mpg_under diesel_price
      let extra_tyre_cost :=
        calculate_extra_tyre_cost_10k params.tyre_cost_std params.tyre_cost_under tyre_lifespan
      let total_extra_cost_10k := extra_fuel_cost + extra_tyre_cost
      let annual_savings := (miles / 10000) * total_extra_cost_10k * (count : ℚ)
      some ⟨annual_savings, total_extra_cost_10k⟩
    else
      some ⟨0, 0⟩

/-- The accumulation `total_fleet_savings += process_van_type ...`
(lines 78, 113-116), generalised to any list of fleet segments
`(className, vehicleCount, annualMiles)`.  A failed catalog lookup
anywhere makes the whole run fail, as the Python exception would. -/
def total_fleet_savings (diesel_price : ℚ) : List (String × ℕ × ℚ) → Option ℚ
  | [] => some 0
  | (name, count, miles) :: rest =>
    match process_van_type name diesel_price count miles,
          total_fleet_savings diesel_price rest with
    | some r, some t => some (r.annual_savings + t)
    | _, _ => none

/-- The list of per-class annual savings (the values returned by each
`process_van_type` call), used to state that the total is their sum. -/
def per_class_annual_savings (diesel_price : ℚ) : List (String × ℕ × ℚ) → Option (List ℚ)
  | [] => some []
  | (name, count, miles) :: rest =>
    match process_van_type name diesel_price count miles,
          per_class_annual_savings diesel_price rest with
    | some r, some l => some (r.annual_savings :: l)
    | _, _ => none

/-! ## Helper lemmas -/

/-- When all three inputs are positive, the fuel-cost delta is the
gallons delta times `LITRES_PER_GALLON` times the price. -/
theorem extra_fuel_cost_eq (mpg_std mpg_under price : ℚ)
    (h1 : 0 < mpg_std) (h2 : 0 < mpg_under) (h3 : 0 < price) :
    calculate_extra_fuel_cost_10k mpg_std mpg_under price
      = (10000 / mpg_under - 10000 / mpg_std) * LITRES_PER_GALLON * price := by
  simp only [calculate_extra_fuel_cost_10k]
  rw [if_neg (by push_neg; exact ⟨h1, h2, h3⟩)]
  ring

/-- When the lifespan is positive, the tyre-cost delta is the cost
differential scaled by `10000 / lifespan`. -/
theorem extra_tyre_cost_eq (tc_s tc_u lifespan : ℚ) (h : 0 < lifespan) :
    calculate_extra_tyre_cost_10k tc_s tc_u lifespan
      = (tc_u - tc_s) * 10000 / lifespan := by
  simp only [calculate_extra_tyre_cost_10k]
  rw [if_neg (not_le.mpr h), div_div_eq_mul_div]

/-- Unfolding of `process_van_type` on a successful catalog lookup. -/
theorem process_van_type_eq (name : String) (params : VanParams)
    (p miles : ℚ) (count : ℕ)
    (hl : List.lookup name DEFAULT_PARAMS = some params) :
    process_van_type name p count miles =
      some (if 0 < count ∧ 0 < miles then
        ⟨(miles / 10000) *
            (calculate_extra_fuel_cost_10k params.mpg_std params.mpg_under p +
              calculate_extra_tyre_cost_10k params.tyre_cost_std params.tyre_cost_under
                DEFAULT_TYRE_LIFESPAN_MILES) * (count : ℚ),
          calculate_extra_fuel_cost_10k params.mpg_std params.mpg_under p +
            calculate_extra_tyre_cost_10k params.tyre_cost_std params.tyre_cost_under
              DEFAULT_TYRE_LIFESPAN_MILES⟩
      else ⟨0, 0⟩) := by
  by_cases h : 0 < count ∧ 0 < miles
  · simp [process_van_type, hl, h]
  · simp [process_van_type, hl, h]

/-! ## Claims -/

/-- C1: for every class and price with `mpgStandard > 0`,
`mpgUnderinflated > 0` and `dieselPricePerLitre > 0`, the extra fuel
cost per 10k miles equals
`(10000 / mpgUnderinflated - 10000 / mpgStandard) × litresPerGallon × price`,
with `litresPerGallon = 4.54609`. -/
theorem fuel_cost_formula (mpg_std mpg_under price : ℚ)
    (h1 : 0 < mpg_std) (h2 : 0 < mpg_under) (h3 : 0 < price) :
    calculate_extra_fuel_cost_10k mpg_std mpg_under price
      = (10000 / mpg_under - 10000 / mpg_std) * (4.54609 : ℚ) * price := by
  rw [extra_fuel_cost_eq mpg_std mpg_under price h1 h2 h3]
  norm_num [LITRES_PER_GALLON]

/-- Witness for C1 at the Small Van parameters and price 1.51. -/
theorem fuel_cost_formula_witness :
    (0 : ℚ) < 54.3 ∧ (0 : ℚ) < 51 ∧ (0 : ℚ) < 1.51 ∧
    calculate_extra_fuel_cost_10k 54.3 51 1.51
      = (10000 / 51 - 10000 / 54.3) * (4.54609 : ℚ) * 1.51 :=
  ⟨by norm_num, by norm_num, by norm_num,
    fuel_cost_formula 54.3 51 1.51 (by norm_num) (by norm_num) (by norm_num)⟩

/-- C2: for every class and `lifespanMiles > 0`, the extra tyre cost per
10k miles equals
`(tyreCostUnderinflated - tyreCostStandard) × 10000 / lifespanMiles`. -/
theorem tyre_cost_formula (tc_s tc_u lifespan : ℚ) (h : 0 < lifespan) :
    calculate_extra_tyre_cost_10k tc_s tc_u lifespan
      = (tc_u - tc_s) * 10000 / lifespan :=
  extra_tyre_cost_eq tc_s tc_u lifespan h

/-- Witness for C2 at the Small Van tyre costs and the default lifespan. -/
theorem tyre_cost_formula_witness :
    (0 : ℚ) < 20000 ∧
    calculate_extra_tyre_cost_10k 240 283.2 20000 = (283.2 - 240) * 10000 / 20000 :=
  ⟨by norm_num, tyre_cost_formula 240 283.2 20000 (by norm_num)⟩

/-- C3: the fuel-cost helper returns exactly 0 whenever any of its
inputs is non-positive, and the tyre-cost helper returns exactly 0
whenever the lifespan is non-positive (both return, never error: the
embedded functions are total). -/
theorem degrade_to_zero (mpg_std mpg_under price tc_s tc_u lifespan : ℚ)
    (hf : mpg_std ≤ 0 ∨ mpg_under ≤ 0 ∨ price ≤ 0) (ht : lifespan ≤ 0) :
    calculate_extra_fuel_cost_10k mpg_std mpg_under price = 0 ∧
    calculate_extra_tyre_cost_10k tc_s tc_u lifespan = 0 := by
  constructor
  · simp only [calculate_extra_fuel_cost_10k]
    rw [if_pos hf]
  · simp only [calculate_extra_tyre_cost_10k]
    rw [if_pos ht]

/-- Witness for C3 at `mpg_std = 0`, `lifespan = 0`. -/
theorem degrade_to_zero_witness :
    ((0 : ℚ) ≤ 0 ∨ (51 : ℚ) ≤ 0 ∨ (1.51 : ℚ) ≤ 0) ∧ (0 : ℚ) ≤ 0 ∧
    calculate_extra_fuel_cost_10k 0 51 1.51 = 0 ∧
    calculate_extra_tyre_cost_10k 240 283.2 0 = 0 :=
  ⟨Or.inl le_rfl, le_rfl,
    degrade_to_zero 0 51 1.51 240 283.2 0 (Or.inl le_rfl) le_rfl⟩

/-- C4: for every combination of fleet segments, the accumulated
`total_fleet_savings` equals the sum of the individual per-class annual
savings returned by the `process_van_type` calls. -/
theorem total_is_sum_of_class_savings (p : ℚ) (segs : List (String × ℕ × ℚ)) :
    total_fleet_savings p segs
      = (per_class_annual_savings p segs).map List.sum := by
  induction segs with
  | nil => simp [total_fleet_savings, per_class_annual_savings]
  | cons s rest ih =>
    obtain ⟨name, count, miles⟩ := s
    simp only [total_fleet_savings, per_class_annual_savings, ih]
    cases process_van_type name p count miles with
    | none => rfl
    | some r =>
      cases per_class_annual_savings p rest with
      | none => rfl
      | some l => simp

/-- C7: for every class satisfying the catalog invariant
`0 < mpgUnderinflated ≤ mpgStandard` and every price > 0, the extra fuel
cost per 10k miles is non-negative. -/
theorem fuel_cost_nonneg (mpg_std mpg_under price : ℚ)
    (h2 : 0 < mpg_under) (hle : mpg_under ≤ mpg_std) (h3 : 0 < price) :
    0 ≤ calculate_extra_fuel_cost_10k mpg_std mpg_under price := by
  have h1 : 0 < mpg_std := lt_of_lt_of_le h2 hle
  rw [extra_fuel_cost_eq mpg_std mpg_under price h1 h2 h3]
  apply mul_nonneg (mul_nonneg _ _) h3.le
  · rw [sub_nonneg]
    exact div_le_div_of_nonneg_left (by norm_num) h2 hle
  · norm_num [LITRES_PER_GALLON]

/-- Witness for C7 at the Small Van parameters and price 1.51. -/
theorem fuel_cost_nonneg_witness :
    (0 : ℚ) < 51 ∧ (51 : ℚ) ≤ 54.3 ∧ (0 : ℚ) < 1.51 ∧
    0 ≤ calculate_extra_fuel_cost_10k 54.3 51 1.51 :=
  ⟨by norm_num, by norm_num, by norm_num,
    fuel_cost_nonneg 54.3 51 1.51 (by norm_num) (by norm_num) (by norm_num)⟩

/-- C10: the degrade-to-zero guard of the tyre-cost helper checks only
the lifespan; with `lifespan = 10000 > 0` and
`tyre_cost_under = 50 < 100 = tyre_cost_std` the helper returns the
strictly negative value `-50` instead of `0` or an error. -/
theorem tyre_cost_can_be_negative :
    (0 : ℚ) < 10000 ∧ (50 : ℚ) < 100 ∧
    calculate_extra_tyre_cost_10k 100 50 10000 < 0 := by
  refine ⟨by norm_num, by norm_num, ?_⟩
  norm_num [calculate_extra_tyre_cost_10k]

/-- C5 (amended): for every registered class, when `count > 0` and
`miles > 0` the annual saving is `(miles / 10000) × unitSaving × count`
and the unit saving is recorded in the summary; otherwise both the
annual saving and the recorded summary value are 0 (the summary key
exists but holds 0, not the class's computed unit saving). -/
theorem class_annual_saving_cases (name : String) (params : VanParams)
    (p miles : ℚ) (count : ℕ)
    (hl : List.lookup name DEFAULT_PARAMS = some params) :
    process_van_type name p count miles =
      some (if 0 < count ∧ 0 < miles then
        ⟨(miles / 10000) *
            (calculate_extra_fuel_cost_10k params.mpg_std params.mpg_under p +
              calculate_extra_tyre_cost_10k params.tyre_cost_std params.tyre_cost_under
                DEFAULT_TYRE_LIFESPAN_MILES) * (count : ℚ),
          calculate_extra_fuel_cost_10k params.mpg_std params.mpg_under p +
            calculate_extra_tyre_cost_10k params.tyre_cost_std params.tyre_cost_under
              DEFAULT_TYRE_LIFESPAN_MILES⟩
      else ⟨0, 0⟩) :=
  process_van_type_eq name params p miles count hl

/-- Witness for the amended C5 at the Small Van class with zero count. -/
theorem class_annual_saving_cases_witness :
    List.lookup "Small Van" DEFAULT_PARAMS = some ⟨54.3, 51.0, 240.0, 283.2⟩ ∧
    process_van_type "Small Van" 1.51 0 10000 =
      some (if 0 < (0 : ℕ) ∧ (0 : ℚ) < 10000 then
        ⟨((10000 : ℚ) / 10000) *
            (calculate_extra_fuel_cost_10k 54.3 51.0 1.51 +
              calculate_extra_tyre_cost_10k 240.0 283.2 DEFAULT_TYRE_LIFESPAN_MILES) * ((0 : ℕ) : ℚ),
          calculate_extra_fuel_cost_10k 54.3 51.0 1.51 +
            calculate_extra_tyre_cost_10k 240.0 283.2 DEFAULT_TYRE_LIFESPAN_MILES⟩
      else ⟨0, 0⟩) :=
  ⟨rfl, class_annual_saving_cases "Small Van" ⟨54.3, 51.0, 240.0, 283.2⟩ 1.51 10000 0 rfl⟩

/-- C5 counterexample: with zero vehicle count the summary entry for
"Small Van" is 0, while that class's unit saving
(`extraFuelCostPer10k + extraTyreCostPer10k` at the catalog parameters
and price 1.51) is non-zero — so the recorded value is NOT the class's
unit saving, contrary to the claim. -/
theorem zero_count_summary_counterexample :
    (process_van_type "Small Van" 1.51 0 10000).map ProcessResult.saving_per_10k
        = some 0 ∧
    calculate_extra_fuel_cost_10k 54.3 51.0 1.51 +
        calculate_extra_tyre_cost_10k 240.0 283.2 DEFAULT_TYRE_LIFESPAN_MILES ≠ 0 := by
  refine ⟨rfl, ?_⟩
  norm_num [calculate_extra_fuel_cost_10k, calculate_extra_tyre_cost_10k,
    LITRES_PER_GALLON, DEFAULT_TYRE_LIFESPAN_MILES]

/-- C6: aggregation over a segment fails (`none`, the Python `KeyError`
standing for `UnknownClassError`) exactly when the class name is absent
from the catalog; for registered names `process_van_type` always
succeeds, so the lookup failure is the only error of the component. -/
theorem unknown_class_fails (name : String) (p miles : ℚ) (count : ℕ) :
    process_van_type name p count miles = none
      ↔ List.lookup name DEFAULT_PARAMS = none := by
  simp only [process_van_type]
  cases h : List.lookup name DEFAULT_PARAMS with
  | none => simp
  | some params =>
    simp only [reduceCtorEq, iff_false]
    split <;> simp

/-- C8: aggregation is linear in the vehicle count: for a registered
class with positive mileage, doubling the count exactly doubles the
class's annual saving, all else fixed. -/
theorem annual_saving_linear_in_count (name : String) (params : VanParams)
    (p miles : ℚ) (n : ℕ)
    (hl : List.lookup name DEFAULT_PARAMS = some params)
    (hn : 0 < n) (hm : 0 < miles) :
    (process_van_type name p (2 * n) miles).map ProcessResult.annual_savings
      = (process_van_type name p n miles).map (fun r => 2 * r.annual_savings) := by
  simp only [process_van_type, hl]
  rw [if_pos (show 0 < 2 * n ∧ 0 < miles from ⟨by omega, hm⟩),
    if_pos (show 0 < n ∧ 0 < miles from ⟨hn, hm⟩)]
  simp only [Option.map_some']
  congr 1
  push_cast
  ring

/-- Witness for C8 at the Small Van class, count 1, price 1.51. -/
theorem annual_saving_linear_in_count_witness :
    List.lookup "Small Van" DEFAULT_PARAMS = some ⟨54.3, 51.0, 240.0, 283.2⟩ ∧
    0 < 1 ∧ (0 : ℚ) < 10000 ∧
    (process_van_type "Small Van" 1.51 (2 * 1) 10000).map ProcessResult.annual_savings
      = (process_van_type "Small Van" 1.51 1 10000).map (fun r => 2 * r.annual_savings) :=
  ⟨rfl, by norm_num, by norm_num,
    annual_saving_linear_in_count "Small Van" ⟨54.3, 51.0, 240.0, 283.2⟩ 1.51 10000 1
      rfl (by norm_num) (by norm_num)⟩

/-- C9 counterexample: in the Small Van scenario (price 1.51, count 1,
10000 annual miles) the fuel delta exceeds the claimed £81.76 by more
than 4 pence, and the unit saving exceeds the claimed £103.36 by more
than 4 pence, so neither value is "approximately" the claimed figure at
penny precision. -/
theorem small_van_scenario_counterexample :
    8176 / 100 + 1 / 25 < calculate_extra_fuel_cost_10k 54.3 51.0 1.51 ∧
    10336 / 100 + 1 / 25 <
      calculate_extra_fuel_cost_10k 54.3 51.0 1.51 +
        calculate_extra_tyre_cost_10k 240.0 283.2 20000 := by
  norm_num [calculate_extra_fuel_cost_10k, calculate_extra_tyre_cost_10k,
    LITRES_PER_GALLON]

/-- C9 (amended): in the Small Van scenario the tyre delta is exactly
£21.60, the fuel delta is approximately £81.80 (within half a penny),
the unit saving is approximately £103.40, the class annual saving equals
the unit saving exactly (count 1, 10000 miles), and with only this
segment active the fleet total equals that same value. -/
theorem small_van_scenario :
    calculate_extra_tyre_cost_10k 240.0 283.2 20000 = 21.6 ∧
    818 / 10 < calculate_extra_fuel_cost_10k 54.3 51.0 1.51 ∧
    calculate_extra_fuel_cost_10k 54.3 51.0 1.51 < 818 / 10 + 1 / 200 ∧
    1034 / 10 < calculate_extra_fuel_cost_10k 54.3 51.0 1.51 +
        calculate_extra_tyre_cost_10k 240.0 283.2 20000 ∧
    calculate_extra_fuel_cost_10k 54.3 51.0 1.51 +
        calculate_extra_tyre_cost_10k 240.0 283.2 20000 < 1034 / 10 + 1 / 200 ∧
    (process_van_type "Small Van" 1.51 1 10000).map ProcessResult.annual_savings
      = some (calculate_extra_fuel_cost_10k 54.3 51.0 1.51 +
              calculate_extra_tyre_cost_10k 240.0 283.2 20000) ∧
    total_fleet_savings 1.51
        [("Small Van", 1, 10000), ("Large Van", 0, 15000),
         ("Medium Van", 0, 12000), ("Long Wheelbase Van", 0, 20000)]
      = some (calculate_extra_fuel_cost_10k 54.3 51.0 1.51 +
              calculate_extra_tyre_cost_10k 240.0 283.2 20000) := by
  refine ⟨?_, ?_, ?_, ?_, ?_, ?_, ?_⟩
  · norm_num [calculate_extra_tyre_cost_10k]
  · norm_num [calculate_extra_fuel_cost_10k, LITRES_PER_GALLON]
  · norm_num [calculate_extra_fuel_cost_10k, LITRES_PER_GALLON]
  · norm_num [calculate_extra_fuel_cost_10k, calculate_extra_tyre_cost_10k,
      LITRES_PER_GALLON]
  · norm_num [calculate_extra_fuel_cost_10k, calculate_extra_tyre_cost_10k,
      LITRES_PER_GALLON]
  · rw [process_van_type_eq "Small Van" ⟨54.3, 51.0, 240.0, 283.2⟩ 1.51 10000 1 rfl]
    norm_num [DEFAULT_TYRE_LIFESPAN_MILES]
  · simp only [total_fleet_savings,
      process_van_type_eq "Small Van" ⟨54.3, 51.0, 240.0, 283.2⟩ 1.51 10000 1 rfl,
      process_van_type_eq "Large Van" ⟨40.9, 38.4, 380.0, 448.4⟩ 1.51 15000 0 rfl,
      process_van_type_eq "Medium Van" ⟨44.8, 42.1, 320.0, 377.6⟩ 1.51 12000 0 rfl,
      process_van_type_eq "Long Wheelbase Van" ⟨32.5, 30.6, 380.0, 448.4⟩ 1.51 20000 0 rfl]
    norm_num [DEFAULT_TYRE_LIFESPAN_MILES]
